import Mathlib

/-!
# Verification of the solar-car simulation core

Shallow embedding, over exact rationals, of the route/weather alignment,
motor-energy, battery-clamping and simulation-engine code of the repository
(`simulation/environment/GIS.py`, `simulation/environment/WeatherForecasts.py`,
`simulation/motor/basic_motor.py`, `simulation/main/MainSimulation.py`), with
theorems settling the claims about index monotonicity, SOC clamping, curfew
gating, arrival freeze, motor energy, cloud attenuation, weather lookup and
run determinism.
-/

namespace SolarSim

/-! ## 1. List utilities mirroring the NumPy primitives -/

/-- `np.abs` on a scalar, written with a plain conditional so that it
evaluates by kernel reduction. -/
def absQ (x : ℚ) : ℚ := if x < 0 then -x else x

theorem absQ_eq_abs (x : ℚ) : absQ x = |x| := by
  unfold absQ
  split <;> [exact (abs_of_neg (by assumption)).symm;
             exact (abs_of_nonneg (by linarith [not_lt.mp (by assumption)])).symm]

/-- `np.minimum` on scalars, with a plain conditional. -/
def minQ (a b : ℚ) : ℚ := if a ≤ b then a else b

/-- `np.maximum` on scalars, with a plain conditional. -/
def maxQ (a b : ℚ) : ℚ := if a ≤ b then b else a

theorem minQ_le_right (a b : ℚ) : minQ a b ≤ b := by
  unfold minQ; split <;> [assumption; exact le_refl b]

theorem maxQ_le (a b c : ℚ) (h₁ : a ≤ c) (h₂ : b ≤ c) : maxQ a b ≤ c := by
  unfold maxQ; split <;> assumption

theorem le_maxQ_left (a b : ℚ) : a ≤ maxQ a b := by
  unfold maxQ; split <;> [assumption; exact le_refl a]

theorem le_maxQ_right (a b : ℚ) : b ≤ maxQ a b := by
  unfold maxQ
  split <;> [exact le_refl b; linarith [not_le.mp (by assumption)]]

/-- `np.cumsum` with a running accumulator: `cumsumFrom a [x, y] = [a+x, a+x+y]`. -/
def cumsumFrom (acc : ℚ) : List ℚ → List ℚ
  | [] => []
  | x :: xs => (acc + x) :: cumsumFrom (acc + x) xs

/-- `np.cumsum`: `cumsum [a, b, c] = [a, a+b, a+b+c]`. -/
def cumsum (xs : List ℚ) : List ℚ := cumsumFrom 0 xs

/-- `arr[::2] *= -1`: negate the elements at even indices. -/
def negateEvenIdx : List ℚ → List ℚ
  | [] => []
  | [x] => [-x]
  | x :: y :: xs => -x :: y :: negateEvenIdx xs

/-- `np.diff`: adjacent differences, one element shorter than the input. -/
def diff : List ℚ → List ℚ
  | [] => []
  | [_] => []
  | x :: y :: xs => (y - x) :: diff (y :: xs)

theorem cumsumFrom_length (acc : ℚ) (xs : List ℚ) :
    (cumsumFrom acc xs).length = xs.length := by
  induction xs generalizing acc with
  | nil => rfl
  | cons x xs ih => simp [cumsumFrom, ih]

theorem cumsum_length (xs : List ℚ) : (cumsum xs).length = xs.length :=
  cumsumFrom_length 0 xs

theorem diff_length (xs : List ℚ) : (diff xs).length = xs.length - 1 := by
  induction xs with
  | nil => rfl
  | cons x xs ih =>
    cases xs with
    | nil => rfl
    | cons y ys => simpa [diff] using ih

theorem negateEvenIdx_length (xs : List ℚ) :
    (negateEvenIdx xs).length = xs.length := by
  induction xs using negateEvenIdx.induct with
  | case1 => rfl
  | case2 x => rfl
  | case3 x y xs ih => simpa [negateEvenIdx] using ih

/-! ## 2. Midpoint-boundary arrays (`GIS.calculate_closest_gis_indices`,
`WeatherForecasts.calculate_closest_weather_indices`)

Both methods build, from the array of inter-coordinate path distances, the
array of midpoints between consecutive cumulative distances:
`cumulative_path_distances = np.cumsum(path_distances)`,
`cumulative_path_distances[::2] *= -1`,
`average_distances = np.abs(np.diff(cumulative_path_distances) / 2)`. -/

/-- The `average_distances` array both index-walks precompute. -/
def averageDistances (pathDistances : List ℚ) : List ℚ :=
  (diff (negateEvenIdx (cumsum pathDistances))).map (fun x => absQ (x / 2))

theorem averageDistances_length (pd : List ℚ) :
    (averageDistances pd).length = pd.length - 1 := by
  simp [averageDistances, diff_length, negateEvenIdx_length, cumsum_length]

/-! ## 3. The GIS monotone-cursor walk (`GIS.calculate_closest_gis_indices`) -/

/-- One loop iteration of `calculate_closest_gis_indices`: advance the cursor
when the query distance exceeds the current midpoint boundary, clamping at the
last valid index of `average_distances`. -/
def gisStep (avg : List ℚ) (current : ℕ) (d : ℚ) : ℕ :=
  if d > avg.getD current 0 then
    if current > avg.length - 1 then
      avg.length - 1
    else
      if current + 1 > avg.length - 1 then avg.length - 1 else current + 1
  else current

/-- The loop of `calculate_closest_gis_indices`, appending the cursor after
each step. -/
def gisIndicesFrom (avg : List ℚ) (current : ℕ) : List ℚ → List ℕ
  | [] => []
  | d :: ds =>
    let c := gisStep avg current d
    c :: gisIndicesFrom avg c ds

/-- `GIS.calculate_closest_gis_indices`: map each cumulative distance to a
route-segment index by a single forward-walking cursor starting at 0. -/
def calculate_closest_gis_indices (pathDistances : List ℚ)
    (cumulativeDistances : List ℚ) : List ℕ :=
  gisIndicesFrom (averageDistances pathDistances) 0 cumulativeDistances

example :
    calculate_closest_gis_indices [10, 10, 10] [0, 12, 25] = [0, 0, 1] := by
  norm_num [calculate_closest_gis_indices, gisIndicesFrom, gisStep,
    averageDistances, cumsum, cumsumFrom, negateEvenIdx, diff, absQ]

example :
    calculate_closest_gis_indices [10, 10, 10] [0, 16, 26, 100, 200] =
      [0, 1, 1, 1, 1] := by
  norm_num [calculate_closest_gis_indices, gisIndicesFrom, gisStep,
    averageDistances, cumsum, cumsumFrom, negateEvenIdx, diff, absQ]

/-- The GIS cursor step keeps the cursor in `[current, avg.length - 1]`
whenever it starts at most `avg.length - 1`. -/
theorem gisStep_invariant (avg : List ℚ) (current : ℕ) (d : ℚ)
    (h : current ≤ avg.length - 1) :
    current ≤ gisStep avg current d ∧ gisStep avg current d ≤ avg.length - 1 := by
  unfold gisStep
  split
  · split
    · exact ⟨h, le_refl _⟩
    · split
      · exact ⟨h, le_refl _⟩
      · exact ⟨Nat.le_succ current, Nat.le_of_not_lt (by assumption)⟩
  · exact ⟨le_refl current, h⟩

/-- Invariant of the GIS walk: starting from a cursor within bounds, the
emitted index sequence is non-decreasing (prefixed with the starting cursor)
and every emitted index is at most `avg.length - 1`. -/
theorem gisIndicesFrom_invariant (avg : List ℚ) (ds : List ℚ) :
    ∀ current, current ≤ avg.length - 1 →
      List.Chain' (· ≤ ·) (current :: gisIndicesFrom avg current ds) ∧
      ∀ i ∈ gisIndicesFrom avg current ds, i ≤ avg.length - 1 := by
  induction ds with
  | nil => exact fun current h => ⟨List.chain'_singleton current, by simp [gisIndicesFrom]⟩
  | cons d ds ih =>
    intro current h
    obtain ⟨hle, hbound⟩ := gisStep_invariant avg current d h
    obtain ⟨hchain, hall⟩ := ih (gisStep avg current d) hbound
    refine ⟨List.chain'_cons.mpr ⟨hle, hchain⟩, ?_⟩
    intro i hi
    simp only [gisIndicesFrom, List.mem_cons] at hi
    rcases hi with hi | hi
    · exact hi ▸ hbound
    · exact hall i hi

/-- C1. `GIS.calculate_closest_gis_indices` (GIS.py:97-133): for a
non-decreasing sequence of cumulative distances over a route of
`N = pathDistances.length + 1` coordinates (`N ≥ 3`, so that the midpoint
array is non-empty and the source's indexing is in bounds), the returned index
sequence is non-decreasing and every index lies in `[0, N-2]`; the cursor
never moves backward and saturates at the last valid index. -/
theorem calculate_closest_gis_indices_monotone_bounded
    (pathDistances cumulativeDistances : List ℚ)
    (hN : 2 ≤ pathDistances.length)
    (hmono : List.Chain' (· ≤ ·) cumulativeDistances) :
    List.Chain' (· ≤ ·)
        (calculate_closest_gis_indices pathDistances cumulativeDistances) ∧
      ∀ i ∈ calculate_closest_gis_indices pathDistances cumulativeDistances,
        i ≤ pathDistances.length - 1 := by
  obtain ⟨hchain, hall⟩ :=
    gisIndicesFrom_invariant (averageDistances pathDistances)
      cumulativeDistances 0 (Nat.zero_le _)
  refine ⟨hchain.tail, ?_⟩
  intro i hi
  have hbound := hall i hi
  rw [averageDistances_length] at hbound
  omega

/-- Witness for C1 at the concrete route `[10, 10, 10]` (`N = 4`) and the
non-decreasing queries `[0, 12, 25]`. -/
theorem calculate_closest_gis_indices_monotone_bounded_witness :
    List.Chain' (· ≤ ·)
        (calculate_closest_gis_indices [10, 10, 10] [0, 12, 25]) ∧
      ∀ i ∈ calculate_closest_gis_indices [10, 10, 10] [0, 12, 25],
        i ≤ List.length [(10 : ℚ), 10, 10] - 1 :=
  calculate_closest_gis_indices_monotone_bounded [10, 10, 10] [0, 12, 25]
    (by norm_num) (by norm_num [List.chain'_cons])

/-! ## 4. The weather monotone-cursor walk
(`WeatherForecasts.calculate_closest_weather_indices`)

Same alternating-midpoint construction as the GIS walk, but the loop body
clamps the cursor to the last valid index *before* reading the boundary, and
advances by at most one per query. -/

/-- One loop iteration of `calculate_closest_weather_indices`. -/
def weatherStep (avg : List ℚ) (current : ℕ) (d : ℚ) : ℕ :=
  let c := if current > avg.length - 1 then avg.length - 1 else current
  if d > avg.getD c 0 then
    if c + 1 > avg.length - 1 then avg.length - 1 else c + 1
  else c

/-- The loop of `calculate_closest_weather_indices`. -/
def weatherIndicesFrom (avg : List ℚ) (current : ℕ) : List ℚ → List ℕ
  | [] => []
  | d :: ds =>
    let c := weatherStep avg current d
    c :: weatherIndicesFrom avg c ds

/-- `WeatherForecasts.calculate_closest_weather_indices`: map each cumulative
distance to a weather-coordinate index by a forward-walking cursor starting
at 0 over the midpoints of the weather-coordinate path distances. -/
def calculate_closest_weather_indices (weatherPathDistances : List ℚ)
    (cumulativeDistances : List ℚ) : List ℕ :=
  weatherIndicesFrom (averageDistances weatherPathDistances) 0 cumulativeDistances

example :
    calculate_closest_weather_indices [10, 10, 10] [0, 16, 26, 100, 5, 200] =
      [0, 1, 1, 1, 1, 1] := by
  norm_num [calculate_closest_weather_indices, weatherIndicesFrom, weatherStep,
    averageDistances, cumsum, cumsumFrom, negateEvenIdx, diff, absQ]

/-- The weather cursor step keeps the cursor in
`[current, min (current + 1) (avg.length - 1)]` whenever it starts at most
`avg.length - 1`. -/
theorem weatherStep_invariant (avg : List ℚ) (current : ℕ) (d : ℚ)
    (h : current ≤ avg.length - 1) :
    current ≤ weatherStep avg current d ∧
      weatherStep avg current d ≤ current + 1 ∧
      weatherStep avg current d ≤ avg.length - 1 := by
  unfold weatherStep
  simp only [if_neg (Nat.not_lt.mpr h)]
  split
  · split
    · refine ⟨h, ?_, le_refl _⟩
      omega
    · exact ⟨Nat.le_succ current, le_refl _, Nat.le_of_not_lt (by assumption)⟩
  · exact ⟨le_refl current, Nat.le_succ current, h⟩

/-- Invariant of the weather walk: from a cursor within bounds, consecutive
emitted indices never decrease and advance by at most one, and every emitted
index is at most `avg.length - 1`. -/
theorem weatherIndicesFrom_invariant (avg : List ℚ) (ds : List ℚ) :
    ∀ current, current ≤ avg.length - 1 →
      List.Chain' (fun a b => a ≤ b ∧ b ≤ a + 1)
          (current :: weatherIndicesFrom avg current ds) ∧
      ∀ i ∈ weatherIndicesFrom avg current ds, i ≤ avg.length - 1 := by
  induction ds with
  | nil => exact fun current h => ⟨List.chain'_singleton current, by simp [weatherIndicesFrom]⟩
  | cons d ds ih =>
    intro current h
    obtain ⟨hle, hstep, hbound⟩ := weatherStep_invariant avg current d h
    obtain ⟨hchain, hall⟩ := ih (weatherStep avg current d) hbound
    refine ⟨List.chain'_cons.mpr ⟨⟨hle, hstep⟩, hchain⟩, ?_⟩
    intro i hi
    simp only [weatherIndicesFrom, List.mem_cons] at hi
    rcases hi with hi | hi
    · exact hi ▸ hbound
    · exact hall i hi

/-- C10. `WeatherForecasts.calculate_closest_weather_indices`
(WeatherForecasts.py:241-290): for any input array of cumulative distances
(monotone or not), over a weather-coordinate set with at least two
inter-coordinate distances (so the midpoint-boundary array is non-empty and
the source's indexing is in bounds), the returned indices never decrease,
advance by at most 1 between consecutive queries, and are bounded above by
the last valid index of the midpoint-boundary (`average_distances`) array. -/
theorem calculate_closest_weather_indices_invariant
    (weatherPathDistances cumulativeDistances : List ℚ)
    (hM : 2 ≤ weatherPathDistances.length) :
    List.Chain' (fun a b => a ≤ b ∧ b ≤ a + 1)
        (calculate_closest_weather_indices weatherPathDistances
          cumulativeDistances) ∧
      ∀ i ∈ calculate_closest_weather_indices weatherPathDistances
          cumulativeDistances,
        i ≤ (averageDistances weatherPathDistances).length - 1 := by
  obtain ⟨hchain, hall⟩ :=
    weatherIndicesFrom_invariant (averageDistances weatherPathDistances)
      cumulativeDistances 0 (Nat.zero_le _)
  exact ⟨hchain.tail, hall⟩

/-- Witness for C10 at the concrete weather path `[10, 10, 10]` and the
non-monotone queries `[0, 16, 26, 100, 5, 200]`. -/
theorem calculate_closest_weather_indices_invariant_witness :
    List.Chain' (fun a b => a ≤ b ∧ b ≤ a + 1)
        (calculate_closest_weather_indices [10, 10, 10]
          [0, 16, 26, 100, 5, 200]) ∧
      ∀ i ∈ calculate_closest_weather_indices [10, 10, 10]
          [0, 16, 26, 100, 5, 200],
        i ≤ (averageDistances [10, 10, 10]).length - 1 :=
  calculate_closest_weather_indices_invariant [10, 10, 10]
    [0, 16, 26, 100, 5, 200] (by norm_num)

/-! ## 5. The weather-in-time lookup
(`WeatherForecasts.get_weather_forecast_in_time`)

`self.weather_forecast` is an `[M][T][9]` array; a row holds
`(latitude, longitude, dt, timezone_offset, dt + timezone_offset (local time),
wind_speed, wind_direction, cloud_cover, description_id)`. -/

/-- One stored forecast row (the 9 fields of `weather_forecast[i][j]`). -/
structure ForecastRow where
  lat : ℚ
  lon : ℚ
  dt : ℚ
  tzOffset : ℚ
  localTime : ℚ
  windSpeed : ℚ
  windDirection : ℚ
  cloudCover : ℚ
  descriptionId : ℚ

/-- The all-zero row, used as the out-of-bounds default of list lookups. -/
def emptyRow : ForecastRow := ⟨0, 0, 0, 0, 0, 0, 0, 0, 0⟩

/-- `np.argmin(np.abs(t - ts))`: the first index of `ts` minimizing the
absolute difference to `t` (0 on the empty list, on which the source's
`np.argmin` raises). -/
def argminAbsDiff : List ℚ → ℚ → ℕ
  | [], _ => 0
  | [_], _ => 0
  | x :: y :: xs, t =>
    if absQ (t - (y :: xs).getD (argminAbsDiff (y :: xs) t) 0) < absQ (t - x)
    then argminAbsDiff (y :: xs) t + 1
    else 0

theorem argminAbsDiff_lt_length (ts : List ℚ) (t : ℚ) (h : ts ≠ []) :
    argminAbsDiff ts t < ts.length := by
  induction ts with
  | nil => exact absurd rfl h
  | cons x xs ih =>
    cases xs with
    | nil => simp [argminAbsDiff]
    | cons y ys =>
      have := ih (by simp)
      unfold argminAbsDiff
      split <;> simp_all <;> omega

theorem argminAbsDiff_min (ts : List ℚ) (t : ℚ) :
    ∀ j < ts.length,
      absQ (t - ts.getD (argminAbsDiff ts t) 0) ≤ absQ (t - ts.getD j 0) := by
  induction ts with
  | nil => intro j hj; simp at hj
  | cons x xs ih =>
    cases xs with
    | nil =>
      intro j hj
      have hj0 : j = 0 := by simpa using hj
      subst hj0
      simp [argminAbsDiff]
    | cons y ys =>
      intro j hj
      have hrec := ih
      unfold argminAbsDiff
      split
      · rename_i hlt
        cases j with
        | zero => simpa [List.getD] using le_of_lt hlt
        | succ j' =>
          simp only [List.getD_cons_succ]
          exact hrec j' (by simpa using hj)
      · rename_i hge
        have hxmin : absQ (t - x) ≤
            absQ (t - (y :: ys).getD (argminAbsDiff (y :: ys) t) 0) :=
          le_of_not_lt hge
        cases j with
        | zero => simp [List.getD]
        | succ j' =>
          simp only [List.getD_cons_succ, List.getD_cons_zero]
          exact le_trans hxmin (hrec j' (by simpa using hj))

/-- `WeatherForecasts.get_weather_forecast_in_time`
(WeatherForecasts.py:292-340): gather the per-coordinate forecasts at
`indices`, take the local-time column of the *first* gathered coordinate
(`full_weather_forecast_at_coords[0, :, 4]`), compute per-query nearest-time
indices against that column, and return each queried coordinate's row at its
query's nearest-time index. -/
def get_weather_forecast_in_time (weather_forecast : List (List ForecastRow))
    (indices : List ℕ) (unix_timestamps : List ℚ) : List ForecastRow :=
  let full := indices.map (fun i => weather_forecast.getD i [])
  let dtLocal := (full.getD 0 []).map ForecastRow.localTime
  (full.zip unix_timestamps).map
    (fun p => p.1.getD (argminAbsDiff dtLocal p.2) emptyRow)

theorem localTime_getD_map (l : List ForecastRow) (k : ℕ) :
    (l.map ForecastRow.localTime).getD k 0 = (l.getD k emptyRow).localTime := by
  induction l generalizing k with
  | nil => simp [List.getD, emptyRow]
  | cons r rs ih =>
    cases k with
    | zero => rfl
    | succ k' => simpa using ih k'

theorem getD_map_listFn (f : ℕ → List ForecastRow) (l : List ℕ) (k : ℕ)
    (hk : k < l.length) :
    (l.map f).getD k [] = f (l.getD k 0) := by
  rw [List.getD_eq_getElem _ _ (by simpa using hk), List.getElem_map,
    List.getD_eq_getElem _ _ hk]

/-- The returned row at query position `i`, written out: the queried
coordinate's forecast list, indexed by the nearest-time index computed
against the local-time column of the **first** queried coordinate. -/
theorem get_weather_forecast_in_time_getD
    (wf : List (List ForecastRow)) (indices : List ℕ) (timestamps : List ℚ)
    (i : ℕ) (hi : i < indices.length) (hit : i < timestamps.length) :
    (get_weather_forecast_in_time wf indices timestamps).getD i emptyRow =
      (wf.getD (indices.getD i 0) []).getD
        (argminAbsDiff
          ((wf.getD (indices.getD 0 0) []).map ForecastRow.localTime)
          (timestamps.getD i 0)) emptyRow := by
  unfold get_weather_forecast_in_time
  have hlenfull : (indices.map (fun k => wf.getD k [])).length = indices.length :=
    List.length_map _ _
  have hzip : i < ((indices.map (fun k => wf.getD k [])).zip timestamps).length := by
    rw [List.length_zip, hlenfull]
    omega
  rw [List.getD_eq_getElem _ _ (by simpa using hzip)]
  simp only [List.getElem_map, List.getElem_zip]
  have h0 : (indices.map (fun k => wf.getD k [])).getD 0 [] =
      wf.getD (indices.getD 0 0) [] :=
    getD_map_listFn _ _ 0 (by omega)
  simp only [h0]
  rw [← List.getD_eq_getElem indices 0 hi,
    ← List.getD_eq_getElem timestamps 0 hit]

/-- C7, amended. `WeatherForecasts.get_weather_forecast_in_time`
(WeatherForecasts.py:292-340): when the queried coordinate's local-time
column coincides with the local-time column of the first queried coordinate
(the column the source actually searches, `full_weather_forecast_at_coords[0, :, 4]`),
the returned row at each query position minimizes the absolute local-time
difference to the queried timestamp among that coordinate's own entries. -/
theorem get_weather_forecast_in_time_nearest_shared
    (wf : List (List ForecastRow)) (indices : List ℕ) (timestamps : List ℚ)
    (i : ℕ) (hi : i < indices.length) (hit : i < timestamps.length)
    (hsame : (wf.getD (indices.getD i 0) []).map ForecastRow.localTime =
      (wf.getD (indices.getD 0 0) []).map ForecastRow.localTime)
    (hne : wf.getD (indices.getD i 0) [] ≠ []) :
    ∀ j < (wf.getD (indices.getD i 0) []).length,
      absQ (timestamps.getD i 0 -
          ((get_weather_forecast_in_time wf indices timestamps).getD i
            emptyRow).localTime) ≤
        absQ (timestamps.getD i 0 -
          ((wf.getD (indices.getD i 0) []).getD j emptyRow).localTime) := by
  intro j hj
  rw [get_weather_forecast_in_time_getD wf indices timestamps i hi hit, ← hsame]
  have hlen : ((wf.getD (indices.getD i 0) []).map ForecastRow.localTime).length =
      (wf.getD (indices.getD i 0) []).length := List.length_map _ _
  have hmin := argminAbsDiff_min
    ((wf.getD (indices.getD i 0) []).map ForecastRow.localTime)
    (timestamps.getD i 0) j (by omega)
  rw [localTime_getD_map, localTime_getD_map] at hmin
  exact hmin

/-- A forecast row carrying only a local time and a distinguishing wind
speed, for the C7 counterexample. -/
def mkRow (localTime windSpeed : ℚ) : ForecastRow :=
  ⟨0, 0, 0, 0, localTime, windSpeed, 0, 0, 0⟩

/-- C7, counterexample. With two weather coordinates whose forecast horizons
carry different local-time columns (`[0, 100]` for coordinate 0 and
`[100, 0]` for coordinate 1), the query `(coordinate 1, timestamp 0)` returns
coordinate 1's row at local time 100 (absolute difference 100), even though
coordinate 1 owns a row at local time 0 (absolute difference 0): the returned
row is not the nearest among that coordinate's own entries. -/
theorem get_weather_forecast_in_time_not_per_coordinate :
    absQ (0 -
        ((get_weather_forecast_in_time
            [[mkRow 0 1, mkRow 100 2], [mkRow 100 3, mkRow 0 4]]
            [0, 1] [0, 0]).getD 1 emptyRow).localTime) >
      absQ (0 -
        (([mkRow 100 3, mkRow 0 4].getD 1 emptyRow) : ForecastRow).localTime) := by
  norm_num [get_weather_forecast_in_time, argminAbsDiff, absQ, mkRow, emptyRow,
    List.getD]

/-- Witness for the amended C7 at a concrete forecast table whose two
coordinates share the local-time column `[0, 100]`: every query position
satisfies the per-coordinate nearest-time property. -/
theorem get_weather_forecast_in_time_nearest_shared_witness :
    absQ (List.getD [(0 : ℚ), 90] 1 0 -
        ((get_weather_forecast_in_time
            [[mkRow 0 1, mkRow 100 2], [mkRow 0 3, mkRow 100 4]]
            [0, 1] [0, 90]).getD 1 emptyRow).localTime) ≤
      absQ (List.getD [(0 : ℚ), 90] 1 0 -
        ((List.getD
            [[mkRow 0 1, mkRow 100 2], [mkRow 0 3, mkRow 100 4]]
            (List.getD [0, 1] 1 0) ([] : List ForecastRow)).getD 0
          emptyRow).localTime) :=
  get_weather_forecast_in_time_nearest_shared
    [[mkRow 0 1, mkRow 100 2], [mkRow 0 3, mkRow 100 4]]
    [0, 1] [0, 90] 1 (by norm_num) (by norm_num)
    (by norm_num [mkRow, List.getD]) (by simp [List.getD]) 0
    (by simp [List.getD])

/-! ## 6. Cloud attenuation (`cloud_cover_to_ghi_linear`) -/

/-- Modelled from the spec: `cloud_cover_to_ghi_linear` is exercised by the
repository's tests (src/tests/test_weather_calculations.py) as a member of
the WeatherForecasts module, but its definition is not among the provided
source files. Spec §4.3 gives the general form
`ghi * (1 - 0.65 * cloud_cover/100)`, applied elementwise to the cloud-cover
percentage and clear-sky GHI arrays. -/
def cloud_cover_to_ghi_linear (cloud_covers ghi : List ℚ) : List ℚ :=
  List.zipWith (fun c g => g * (1 - (65 / 100) * c / 100)) cloud_covers ghi

/-- C6. Cloud-attenuation anchors and the test vectors of
src/tests/test_weather_calculations.py: 100% cloud cover scales clear-sky
irradiance by exactly 0.35, 0% leaves it unchanged, intermediate cover
follows `ghi * (1 - 0.65 * cloud_cover/100)`, and the two concrete vectors
evaluate to `[175, 105, 35]` and `[240, 300, 80.5]`. -/
theorem cloud_cover_to_ghi_linear_spec :
    (∀ c g : ℚ, cloud_cover_to_ghi_linear [c] [g] =
      [g * (1 - (65 / 100) * c / 100)]) ∧
    (∀ g : ℚ, cloud_cover_to_ghi_linear [100] [g] = [(35 / 100) * g]) ∧
    (∀ g : ℚ, cloud_cover_to_ghi_linear [0] [g] = [g]) ∧
    cloud_cover_to_ghi_linear [100, 100, 100] [500, 300, 100] =
      [175, 105, 35] ∧
    cloud_cover_to_ghi_linear [80, 0, 30] [500, 300, 100] =
      [240, 300, 805 / 10] := by
  refine ⟨fun c g => rfl, fun g => ?_, fun g => ?_, ?_, ?_⟩ <;>
    · simp only [cloud_cover_to_ghi_linear, List.zipWith]
      norm_num
      try ring

/-! ## 7. The motor energy model (`BasicMotor`)

Constants from `BasicMotor.__init__` (basic_motor.py:9-32), as exact
rationals. -/

def vehicle_mass : ℚ := 250
def acceleration_g : ℚ := 981 / 100
def road_friction : ℚ := 55 / 10000
def tire_radius : ℚ := 2032 / 10000
def air_density : ℚ := 1225 / 1000
def vehicle_frontal_area : ℚ := 952 / 1000
def drag_coefficient : ℚ := 223 / 1000
def friction_force : ℚ := vehicle_mass * acceleration_g * road_friction
def e_mc : ℚ := 98 / 100
def e_m : ℚ := 9 / 10

/-- `BasicMotor.calculate_energy_in` (basic_motor.py:100-127): speed is
converted to angular wheel speed through the tire radius, per-element forces
are rolling resistance, quadratic drag in `speed + wind`, and the signed
grade force; the shaft energy `ω · (ΣF) · tick` is divided by the motor
efficiency `e_m` only. -/
def calculate_energy_in (required_speed_kmh : ℚ)
    (gradients wind_speeds : List ℚ) (tick : ℚ) : List ℚ :=
  let required_speed_ms := required_speed_kmh / (36 / 10)
  let required_angular_speed_rads := required_speed_ms / tire_radius
  List.zipWith
    (fun gradient wind_speed =>
      required_angular_speed_rads *
          (friction_force +
            (1 / 2) * air_density * (required_speed_ms + wind_speed) ^ 2 *
              drag_coefficient * vehicle_frontal_area +
            vehicle_mass * acceleration_g * gradient) * tick / e_m)
    gradients wind_speeds

/-- The output shaft energy over one tick, `ω · (ΣF) · tick`, as the claim
describes it (angular wheel speed times the sum of rolling-resistance, drag
and grade forces, times the tick length). -/
def motor_shaft_energy (speed_kmh gradient wind_speed tick : ℚ) : ℚ :=
  speed_kmh / (36 / 10) / tire_radius *
    (friction_force +
      (1 / 2) * air_density * (speed_kmh / (36 / 10) + wind_speed) ^ 2 *
        drag_coefficient * vehicle_frontal_area +
      vehicle_mass * acceleration_g * gradient) * tick

/-- C5, failing-input evaluation. At `speed = 3.6 km/h` (1 m/s), zero
gradient, zero wind and a 1-second tick, `calculate_energy_in` returns the
shaft energy divided by the motor efficiency alone, and this differs from the
shaft energy divided by both the motor efficiency and the motor-controller
efficiency as the claim (and `calculate_power_in`, basic_motor.py:64-88)
require. -/
theorem calculate_energy_in_omits_controller_efficiency :
    calculate_energy_in (36 / 10) [0] [0] 1 =
        [motor_shaft_energy (36 / 10) 0 0 1 / e_m] ∧
      calculate_energy_in (36 / 10) [0] [0] 1 ≠
        [motor_shaft_energy (36 / 10) 0 0 1 / (e_m * e_mc)] := by
  constructor
  · rfl
  · simp only [calculate_energy_in, motor_shaft_energy, List.zipWith,
      vehicle_mass, acceleration_g, road_friction, tire_radius, air_density,
      vehicle_frontal_area, drag_coefficient, friction_force, e_m, e_mc]
    norm_num

/-- C8. `BasicMotor.calculate_energy_in` at speed 0: the angular-wheel-speed
factor is zero, so every element of the returned energy array is exactly 0,
for every gradient array, wind-speed array and tick length. -/
theorem calculate_energy_in_zero_speed (gradients wind_speeds : List ℚ)
    (tick : ℚ) :
    calculate_energy_in 0 gradients wind_speeds tick =
      List.replicate (min gradients.length wind_speeds.length) 0 := by
  induction gradients generalizing wind_speeds with
  | nil => simp [calculate_energy_in]
  | cons g gs ih =>
    cases wind_speeds with
    | nil => simp [calculate_energy_in]
    | cons w ws =>
      have htail := ih ws
      simp only [calculate_energy_in, List.zipWith] at htail ⊢
      rw [htail]
      simp [Nat.succ_min_succ, List.replicate]

/-! ## 8. Curfew gating and speed masks
(`Simulation.__run_simulation_calculations`, MainSimulation.py:337-348 and
484-486)

`simulation_hours_by_second` holds, at second `s`, the integer hour
`start_hour + s / 3600`; `not_charge` is true when the hour-of-day is
strictly between 8 and 18; NumPy's `logical_and(x, y) * v` keeps `v` exactly
where both operands are truthy (non-zero) and is 0 elsewhere. -/

/-- NumPy truthiness of a float: non-zero. -/
def truthy (x : ℚ) : Bool := decide (x ≠ 0)

/-- `simulation_hours_by_second[s]` (MainSimulation.py:337-340). -/
def hour_at (start_hour s : ℕ) : ℕ := start_hour + s / 3600

/-- `not_charge[s]` (MainSimulation.py:342-344): the vehicle may drive iff
the hour-of-day is neither `≤ 8` nor `≥ 18`. -/
def not_charge (start_hour s : ℕ) : Bool :=
  !(decide (hour_at start_hour s % 24 ≤ 8) || decide (hour_at start_hour s % 24 ≥ 18))

/-- `np.logical_and(arr, not_charge) * arr` (MainSimulation.py:348 and 440),
elementwise from position `i`. -/
def applyCurfewFrom (start_hour i : ℕ) : List ℚ → List ℚ
  | [] => []
  | v :: vs =>
    (if truthy v && not_charge start_hour i then v else 0) ::
      applyCurfewFrom start_hour (i + 1) vs

/-- The curfew-masked speed array (MainSimulation.py:348). -/
def apply_curfew (start_hour : ℕ) (speed : List ℚ) : List ℚ :=
  applyCurfewFrom start_hour 0 speed

/-- `np.logical_and(not_charge, state_of_charge) * speed_kmh`
(MainSimulation.py:484), elementwise from position `i`. -/
def applySocGateFrom (start_hour i : ℕ) : List ℚ → List ℚ → List ℚ
  | s :: ss, v :: vs =>
    (if not_charge start_hour i && truthy s then v else 0) ::
      applySocGateFrom start_hour (i + 1) ss vs
  | _, _ => []

/-- The final effective speed of a run: the raw speed masked first by the
curfew (MainSimulation.py:348), then by curfew-and-nonzero-SOC
(MainSimulation.py:484). -/
def effective_speed (start_hour : ℕ) (soc raw_speed : List ℚ) : List ℚ :=
  applySocGateFrom start_hour 0 soc (apply_curfew start_hour raw_speed)

theorem applySocGateFrom_getD_of_charge_hour (start_hour : ℕ)
    (soc vs : List ℚ) (i j : ℕ)
    (h : not_charge start_hour (i + j) = false) :
    (applySocGateFrom start_hour i soc vs).getD j 0 = 0 := by
  induction soc generalizing vs i j with
  | nil => cases vs <;> simp [applySocGateFrom, List.getD]
  | cons s ss ih =>
    cases vs with
    | nil => simp [applySocGateFrom, List.getD]
    | cons v vs' =>
      cases j with
      | zero =>
        simp only [Nat.add_zero] at h
        simp [applySocGateFrom, h]
      | succ j' =>
        simp only [applySocGateFrom, List.getD_cons_succ]
        exact ih vs' (i + 1) j' (by rw [show i + 1 + j' = i + (j' + 1) by omega]; exact h)

/-- C3. Curfew gating (MainSimulation.py:337-348, 484-486): for every raw
speed profile and every SOC array, the effective speed is exactly 0 at every
tick whose hour-of-day (`start_hour + s / 3600`, per-second grid, tick = 1 s)
falls within the configured non-driving window (`hour % 24 ≤ 8` or
`hour % 24 ≥ 18`), regardless of the raw input speed at that tick. -/
theorem effective_speed_zero_in_charge_window (start_hour : ℕ)
    (soc raw_speed : List ℚ) (s : ℕ)
    (hwindow : hour_at start_hour s % 24 ≤ 8 ∨ hour_at start_hour s % 24 ≥ 18) :
    (effective_speed start_hour soc raw_speed).getD s 0 = 0 := by
  apply applySocGateFrom_getD_of_charge_hour start_hour soc _ 0 s
  simp only [not_charge, Nat.zero_add, Bool.not_eq_false']
  rcases hwindow with h | h
  · simp [h]
  · simp [h]

/-- Witness for C3: with `start_hour = 7` the very first second lies in the
morning charging window (hour 7 ≤ 8), so the effective speed is 0 there even
with raw speed 50 and full battery. -/
theorem effective_speed_zero_in_charge_window_witness :
    (effective_speed 7 [1] [50]).getD 0 0 = 0 :=
  effective_speed_zero_in_charge_window 7 [1] [50] 0 (by norm_num [hour_at])

/-! ## 9. Battery SOC clamping and snapping -/

/-- Modelled from the spec: `BasicBattery.update_array` is instantiated in
MainSimulation.py but its class is not among the provided source files.
Spec §4.6: one SOC value per cumulative net-energy sample, a monotone
transform of the cumulative energy relative to the initial charge and the
total capacity, clamped to `[0, 1]`. -/
def update_array (initial_charge capacity : ℚ)
    (cumulative_delta_energy : List ℚ) : List ℚ :=
  cumulative_delta_energy.map
    (fun e => minQ 1 (maxQ 0 ((initial_charge * capacity + e) / capacity)))

/-- `state_of_charge[np.abs(state_of_charge) < 1e-03] = 0`
(MainSimulation.py:461). -/
def snap_small_soc (soc : List ℚ) : List ℚ :=
  soc.map (fun x => if absQ x < 1 / 1000 then 0 else x)

/-- The SOC series of a run (MainSimulation.py:456-461): the battery update
over the cumulative energy deltas, then the near-zero snap. -/
def state_of_charge (initial_charge capacity : ℚ)
    (cumulative_delta_energy : List ℚ) : List ℚ :=
  snap_small_soc (update_array initial_charge capacity cumulative_delta_energy)

theorem minQ_le_left (a b : ℚ) : minQ a b ≤ a := by
  unfold minQ
  split <;> [exact le_refl a; linarith [not_le.mp (by assumption)]]

theorem minQ_nonneg (a b : ℚ) (ha : 0 ≤ a) (hb : 0 ≤ b) : 0 ≤ minQ a b := by
  unfold minQ; split <;> assumption

/-- C2. SOC bounds and near-zero snap (MainSimulation.py:456-461, battery
clamp modelled from spec §4.6): every element of the per-tick SOC series
satisfies `0 ≤ SOC ≤ 1`, and every element whose absolute value is below
`1e-3` is exactly 0 — this is the series used for speed gating
(MainSimulation.py:484) and stored in the reported result. -/
theorem state_of_charge_bounds_and_snap (initial_charge capacity : ℚ)
    (cumulative_delta_energy : List ℚ) :
    ∀ x ∈ state_of_charge initial_charge capacity cumulative_delta_energy,
      (0 ≤ x ∧ x ≤ 1) ∧ (absQ x < 1 / 1000 → x = 0) := by
  intro x hx
  simp only [state_of_charge, snap_small_soc, update_array, List.map_map,
    List.mem_map, Function.comp] at hx
  obtain ⟨e, _, he⟩ := hx
  by_cases hsnap :
      absQ (minQ 1 (maxQ 0 ((initial_charge * capacity + e) / capacity))) < 1 / 1000
  · rw [if_pos hsnap] at he
    refine ⟨⟨by rw [← he], by rw [← he]; norm_num⟩, fun _ => he.symm⟩
  · rw [if_neg hsnap] at he
    subst he
    refine ⟨⟨minQ_nonneg _ _ (by norm_num) (le_maxQ_left 0 _), minQ_le_left 1 _⟩,
      fun hc => absurd hc hsnap⟩

/-- Witness for C2: the concrete run
`state_of_charge (9/10) 1000 [0, -2000, 500] = [9/10, 0, 1]` contains the
element `9/10`, which satisfies the bounds and the snap property. -/
theorem state_of_charge_bounds_and_snap_witness :
    ((0 : ℚ) ≤ 9 / 10 ∧ (9 : ℚ) / 10 ≤ 1) ∧
      (absQ (9 / 10) < 1 / 1000 → (9 : ℚ) / 10 = 0) :=
  state_of_charge_bounds_and_snap (9 / 10) 1000 [0, -2000, 500] (9 / 10)
    (by norm_num [state_of_charge, snap_small_soc, update_array, minQ, maxQ, absQ])

/-! ## 10. Time in motion, distance clamp and arrival freeze
(`Simulation.__run_simulation_calculations`, MainSimulation.py:486-504) -/

/-- `np.logical_and(tick_array, speed_kmh) * self.tick`
(MainSimulation.py:451-452, 486) from position `i`: `tick_array` is `tick`
everywhere except 0 at index 0, so time in motion is `tick` exactly where
both `tick_array` and the effective speed are non-zero. -/
def timeInMotionFrom (tick : ℚ) (i : ℕ) : List ℚ → List ℚ
  | [] => []
  | v :: vs =>
    (if truthy (if i = 0 then 0 else tick) && truthy v then tick else 0) ::
      timeInMotionFrom tick (i + 1) vs

/-- The per-tick time-in-motion array (MainSimulation.py:486). -/
def time_in_motion (tick : ℚ) (speed : List ℚ) : List ℚ :=
  timeInMotionFrom tick 0 speed

/-- `distance = speed_kmh * (time_in_motion / 3600)` (MainSimulation.py:490). -/
def distance_per_tick (speed tim : List ℚ) : List ℚ :=
  List.zipWith (fun v t => v * (t / 3600)) speed tim

/-- `distances = np.cumsum(distance); distances.clip(0, max_route_distance / 1000)`
(MainSimulation.py:491-494). -/
def clipped_distances (route_length_km : ℚ) (speed tim : List ℚ) : List ℚ :=
  (cumsum (distance_per_tick speed tim)).map
    (fun x => minQ (maxQ x 0) route_length_km)

/-- `np.where(distances == max_route_distance / 1000)[0][0]`, or
`len(time_in_motion)` when no element matches (MainSimulation.py:496-499). -/
def max_dist_index (route_length_km : ℚ) (distances : List ℚ) : ℕ :=
  distances.findIdx (fun x => x == route_length_km)

/-- `time_in_motion[0:k] + zeros_like(time_in_motion[k:])`
(MainSimulation.py:501-502). -/
def freeze_after (k : ℕ) (tim : List ℚ) : List ℚ :=
  tim.take k ++ (tim.drop k).map (fun _ => 0)

theorem freeze_after_getD_of_le (k j : ℕ) (tim : List ℚ) (h : k ≤ j) :
    (freeze_after k tim).getD j 0 = 0 := by
  unfold freeze_after
  by_cases hj : j < (tim.take k ++ (tim.drop k).map (fun _ => (0 : ℚ))).length
  · rw [List.getD_eq_getElem _ _ hj]
    have hklen : (tim.take k).length ≤ j := by
      rw [List.length_take]
      omega
    rw [List.getElem_append_right hklen]
    simp
  · exact List.getD_eq_default _ _ (Nat.le_of_not_lt hj)

/-- C4. Distance clamp and arrival freeze (MainSimulation.py:490-504): the
cumulative-distance series is clamped so it never exceeds the route length,
and with `k` the first tick at which the clamped cumulative distance equals
the route length, the frozen time-in-motion value is 0 at every tick strictly
after `k` (the source zeroes from `k` onward, which implies the claim). -/
theorem distances_clipped_and_time_frozen (tick route_length_km : ℚ)
    (speed : List ℚ) :
    (∀ x ∈ clipped_distances route_length_km speed
        (time_in_motion tick speed), x ≤ route_length_km) ∧
      ∀ j, max_dist_index route_length_km
          (clipped_distances route_length_km speed (time_in_motion tick speed))
          < j →
        (freeze_after
            (max_dist_index route_length_km
              (clipped_distances route_length_km speed
                (time_in_motion tick speed)))
            (time_in_motion tick speed)).getD j 0 = 0 := by
  constructor
  · intro x hx
    simp only [clipped_distances, List.mem_map] at hx
    obtain ⟨y, _, hy⟩ := hx
    rw [← hy]
    exact minQ_le_right _ _
  · intro j hj
    exact freeze_after_getD_of_le _ _ _ (Nat.le_of_lt hj)

/-- Witness for C4 at tick 1 s, route length 1 km and the effective speed
profile `[3600, 3600, 3600]` km/h: the clamped distances are `[0, 1, 1]`,
the route length is first reached at tick `k = 1`, and the frozen
time-in-motion value at tick 2 (> k) is 0; the clamped element at tick 1 is
`1 ≤ 1`. -/
theorem distances_clipped_and_time_frozen_witness :
    (1 : ℚ) ≤ 1 ∧
      (freeze_after
          (max_dist_index 1
            (clipped_distances 1 [3600, 3600, 3600]
              (time_in_motion 1 [3600, 3600, 3600])))
          (time_in_motion 1 [3600, 3600, 3600])).getD 2 0 = 0 :=
  ⟨(distances_clipped_and_time_frozen 1 1 [3600, 3600, 3600]).1 1
      (by norm_num [clipped_distances, distance_per_tick, time_in_motion,
        timeInMotionFrom, truthy, cumsum, cumsumFrom, minQ, maxQ, List.zipWith]),
    (distances_clipped_and_time_frozen 1 1 [3600, 3600, 3600]).2 2
      (by norm_num [max_dist_index, clipped_distances, distance_per_tick,
        time_in_motion, timeInMotionFrom, truthy, cumsum, cumsumFrom, minQ,
        maxQ, List.zipWith, List.findIdx, List.findIdx.go, cond_eq_if,
        beq_iff_eq])⟩

/-! ## 11. The full simulation-calculation run
(`Simulation.__run_simulation_calculations`, MainSimulation.py:319-526)

The route/weather models, configuration constants and the external pure
functions (solar irradiance, array production, the cosine used for
directional wind) are packaged as a read-only `Models` record; the instance
fields the source mutates during a run (`self.route_length`,
`self.time_zones`, `self.local_times`, and the LVS object's consumed energy)
are threaded explicitly as an `EngineState`. -/

/-- Three-list elementwise map. -/
def zipWith3 {α β γ δ : Type} (f : α → β → γ → δ) :
    List α → List β → List γ → List δ
  | a :: as, b :: bs, c :: cs => f a b c :: zipWith3 f as bs cs
  | _, _, _ => []

/-- Five-list elementwise map. -/
def zipWith5 {α β γ δ ε ζ : Type} (f : α → β → γ → δ → ε → ζ) :
    List α → List β → List γ → List δ → List ε → List ζ
  | a :: as, b :: bs, c :: cs, d :: ds, e :: es =>
    f a b c d e :: zipWith5 f as bs cs ds es
  | _, _, _, _, _ => []

/-- The floor of a rational, via flooring integer division. -/
def floorQ (q : ℚ) : ℤ := Int.fdiv q.num (q.den : ℤ)

/-- Modelled from the spec: `helpers.hour_from_unix_timestamp` (the
`simulation.common.helpers` module is not among the provided source files) —
the hour-of-day of a UNIX timestamp, `⌊t / 3600⌋ mod 24`. -/
def hour_from_unix_timestamp (t : ℚ) : ℤ := floorQ (t / 3600) % 24

/-- Modelled from the spec: `helpers.adjust_timestamps_to_local_times` (the
helpers module is not among the provided source files) — spec §4.7 step 3,
the time-zone offset applied to each tick timestamp anchored at the
initialization time. -/
def adjust_timestamps_to_local_times (timestamps : List ℚ) (time_of_init : ℚ)
    (time_zones : List ℚ) : List ℚ :=
  List.zipWith (fun t z => time_of_init + t + z) timestamps time_zones

/-- `WeatherForecasts.get_array_directional_wind_speed`
(WeatherForecasts.py:357-374): `wind_speeds * cos(radians(wind_directions -
vehicle_bearings))`; the transcendental cosine (with its degree-to-radian
conversion) is passed in as an abstract pure function. -/
def get_array_directional_wind_speed (cosine : ℚ → ℚ)
    (vehicle_bearings wind_speeds wind_directions : List ℚ) : List ℚ :=
  zipWith3 (fun b w d => w * cosine (d - b)) vehicle_bearings wind_speeds
    wind_directions

/-- `np.roll(xs, -r, 0)`: rotate the rows left by `r` modulo the length. -/
def npRollNeg (r : ℤ) (xs : List ForecastRow) : List ForecastRow :=
  if xs.length = 0 then xs
  else
    let k := (r % (xs.length : ℤ)).toNat
    xs.drop k ++ xs.take k

/-- `BasicMotor.calculate_energy_in` (basic_motor.py:100-127) as called from
MainSimulation.py:437 with the whole per-tick speed array: NumPy broadcasts
the speed, gradient and wind arrays elementwise. -/
def calculate_energy_in_array (speeds gradients wind_speeds : List ℚ)
    (tick : ℚ) : List ℚ :=
  zipWith3
    (fun v gradient wind_speed =>
      v / (36 / 10) / tire_radius *
          (friction_force +
            (1 / 2) * air_density * (v / (36 / 10) + wind_speed) ^ 2 *
              drag_coefficient * vehicle_frontal_area +
            vehicle_mass * acceleration_g * gradient) * tick / e_m)
    speeds gradients wind_speeds

/-- The read-only models and configuration of a `Simulation` object: route
and weather data built once in `__init__`, plus the external pure functions
(solar irradiance per spec §4.3, array production per spec §4.5, the cosine
of `get_array_directional_wind_speed`), which are not under the provided
source files and enter as opaque pure parameters. -/
structure Models where
  timestamps : List ℚ
  startHour : ℕ
  tick : ℚ
  pathCoords : List (ℚ × ℚ)
  pathDistances : List ℚ
  pathElevations : List ℚ
  pathGradients : List ℚ
  pathTimeZones : List ℚ
  vehicleBearings : List ℚ
  weatherPathDistances : List ℚ
  weatherForecast : List (List ForecastRow)
  timeOfInit : ℚ
  initialCharge : ℚ
  batteryCapacity : ℚ
  lvsPowerLoss : ℚ
  cosine : ℚ → ℚ
  solarGHI : ℚ × ℚ → ℚ → ℚ → ℚ → ℚ → ℚ
  arrayProduced : ℚ → ℚ → ℚ

/-- The instance fields the source mutates while running a simulation:
`self.route_length` (MainSimulation.py:383), the LVS consumed energy
(`self.basic_lvs.update`, MainSimulation.py:434, modelled from spec §4.5 as
storing `power_loss × tick`), and `self.time_zones` / `self.local_times`
(MainSimulation.py:523-524). -/
structure EngineState where
  routeLength : ℚ
  lvsConsumedEnergy : ℚ
  timeZones : List ℚ
  localTimes : List ℚ

/-- The per-tick arrays and scalar aggregates packed into the
`SimulationResult` (MainSimulation.py:507-521); `time_taken` is kept as the
rational sum of the time-in-motion array (the source stringifies it). -/
structure SimulationResult where
  speedKmh : List ℚ
  distances : List ℚ
  stateOfCharge : List ℚ
  deltaEnergy : List ℚ
  solarIrradiances : List ℚ
  windSpeeds : List ℚ
  elevations : List ℚ
  cloudCovers : List ℚ
  distanceTravelled : ℚ
  timeTaken : ℚ
  finalSoc : ℚ

/-- `Simulation.__run_simulation_calculations` (MainSimulation.py:319-526),
threading the mutated instance fields explicitly: curfew-mask the speed,
derive cumulative distances, align route and weather indices, resolve
per-tick environment data, compute motor/LVS/array energies, run the battery
update with the near-zero snap, gate speed by curfew and non-zero SOC,
accumulate and clip distances, freeze time-in-motion from the first
route-length tick, and pack the result. -/
def run_simulation_calculations (m : Models) (st : EngineState)
    (speed_kmh : List ℚ) : EngineState × SimulationResult :=
  let tickArr := 0 :: diff m.timestamps
  let speed₁ := apply_curfew m.startHour speed_kmh
  let distance := List.zipWith (fun dt v => dt * v / (36 / 10)) tickArr speed₁
  let cumulativeDistances := cumsum distance
  let closestGis := calculate_closest_gis_indices m.pathDistances
    cumulativeDistances
  let closestWeather := calculate_closest_weather_indices
    m.weatherPathDistances cumulativeDistances
  let maxRouteDistance := (cumsum m.pathDistances).getLastD 0
  let st₁ : EngineState := { st with routeLength := maxRouteDistance / 1000 }
  let elevationsAtTick := closestGis.map (fun i => m.pathElevations.getD i 0)
  let bearingsAtTick := closestGis.map (fun i => m.vehicleBearings.getD i 0)
  let gradientsAtTick := closestGis.map (fun i => m.pathGradients.getD i 0)
  let timeZonesAtTick := closestGis.map (fun i => m.pathTimeZones.getD i 0)
  let localTimes := adjust_timestamps_to_local_times m.timestamps m.timeOfInit
    timeZonesAtTick
  let wf := get_weather_forecast_in_time m.weatherForecast closestWeather
    localTimes
  let rollByTick : ℤ := 3600 *
    (24 + (m.startHour : ℤ) - hour_from_unix_timestamp (wf.getD 0 emptyRow).dt)
  let wfRolled := npRollNeg rollByTick wf
  let absoluteWindSpeeds := wfRolled.map ForecastRow.windSpeed
  let windDirections := wfRolled.map ForecastRow.windDirection
  let cloudCovers := (wfRolled.map ForecastRow.cloudCover).map (fun _ => (0 : ℚ))
  let windSpeeds := get_array_directional_wind_speed m.cosine bearingsAtTick
    absoluteWindSpeeds windDirections
  let coordsAtTick := closestGis.map (fun i => m.pathCoords.getD i (0, 0))
  let solarIrradiances := zipWith5 m.solarGHI coordsAtTick timeZonesAtTick
    localTimes elevationsAtTick cloudCovers
  let st₂ : EngineState := { st₁ with lvsConsumedEnergy := m.lvsPowerLoss * m.tick }
  let lvsConsumedEnergy := st₂.lvsConsumedEnergy
  let motorConsumedEnergy := calculate_energy_in_array speed₁ gradientsAtTick
    windSpeeds m.tick
  let motorConsumedEnergyMasked := applyCurfewFrom m.startHour 0
    motorConsumedEnergy
  let consumedEnergy := motorConsumedEnergyMasked.map
    (fun x => x + lvsConsumedEnergy)
  let producedEnergy := solarIrradiances.map (fun irr => m.arrayProduced irr m.tick)
  let deltaEnergy := List.zipWith (fun p c => p - c) producedEnergy consumedEnergy
  let cumulativeDeltaEnergy := cumsum deltaEnergy
  let soc := state_of_charge m.initialCharge m.batteryCapacity
    cumulativeDeltaEnergy
  let speed₂ := applySocGateFrom m.startHour 0 soc speed₁
  let tim := time_in_motion m.tick speed₂
  let finalSoc := soc.getLastD 0 * 100
  let distances := clipped_distances (maxRouteDistance / 1000) speed₂ tim
  let k := max_dist_index (maxRouteDistance / 1000) distances
  let timFrozen := freeze_after k tim
  let timeTaken := timFrozen.sum
  let st₃ : EngineState :=
    { st₂ with timeZones := timeZonesAtTick, localTimes := localTimes }
  (st₃,
    { speedKmh := speed₂
      distances := distances
      stateOfCharge := soc
      deltaEnergy := deltaEnergy
      solarIrradiances := solarIrradiances
      windSpeeds := windSpeeds
      elevations := elevationsAtTick
      cloudCovers := cloudCovers
      distanceTravelled := distances.getLastD 0
      timeTaken := timeTaken
      finalSoc := finalSoc })

/-- C9. Determinism / purity of a run (MainSimulation.py:319-526, §5 of the
spec): the `SimulationResult` of `__run_simulation_calculations` is a
function of the speed profile and the read-only models alone — it does not
depend on the mutable instance fields left behind by earlier runs (first
conjunct, for any two engine states), and in particular running the same
speed profile twice in sequence, the second run starting from the state the
first run left behind, reproduces the identical result (second conjunct). -/
theorem run_simulation_calculations_deterministic (m : Models)
    (st st' : EngineState) (speed_kmh : List ℚ) :
    (run_simulation_calculations m st speed_kmh).2 =
        (run_simulation_calculations m st' speed_kmh).2 ∧
      (run_simulation_calculations m
          (run_simulation_calculations m st speed_kmh).1 speed_kmh).2 =
        (run_simulation_calculations m st speed_kmh).2 :=
  ⟨rfl, rfl⟩

end SolarSim
